import Mathlib

/-!
Shallow embedding of `src/main.go` of coupling-index-monitor/metric-n-trace-collector.

The program is a cron-driven collector: each run plans a time window from the
stored watermark, fetches a weighted dependency graph over HTTP, decodes the
JSON envelope, and — when the graph is non-empty — inserts the graph record and
appends a new watermark record to MongoDB.

External effects (MongoDB connectivity, query success, the HTTP response, the
insert outcomes) are injected as explicit parameters; the MongoDB collections
are modelled as lists held in a `DBState`.  Go slices are modelled as
`Option (List _)` so that the `nil` slice (`none`) is distinguished from an
empty non-nil slice (`some []`), which the code's `== nil` check depends on.
Go `float64` payload fields are carried as `Rat`; no claim computes with them.
-/

/-- JSON values, used to model the response body passed to `json.Unmarshal`
(src/main.go:150).  Numbers are carried as rationals: a Go `int` field accepts
a number exactly when it is integral. -/
inductive Json where
  | null
  | bool (b : Bool)
  | num (v : Rat)
  | str (s : String)
  | arr (elems : List Json)
  | obj (fields : List (String × Json))

/-- A node of the weighted graph (src/main.go:23-27, the anonymous struct in
`GraphData.Nodes`). -/
structure Node where
  id : String
  absoluteImportance : Int
  absoluteDependence : Int
deriving DecidableEq, Repr

/-- An edge of the weighted graph (src/main.go:28-34, the anonymous struct in
`GraphData.Edges`). -/
structure Edge where
  source : String
  target : String
  latency : Rat
  frequency : Int
  coExecution : Rat
deriving DecidableEq, Repr

/-- `GraphData` (src/main.go:22-35).  `none` models a Go `nil` slice, `some l`
a non-nil slice with elements `l`. -/
structure GraphData where
  nodes : Option (List Node)
  edges : Option (List Edge)
deriving DecidableEq, Repr

/-- `WeightedGraphResponse` (src/main.go:37-43), the expected JSON envelope. -/
structure WeightedGraphResponse where
  status : String
  message : String
  weightType : String
  gapTime : String
  data : GraphData
deriving DecidableEq, Repr

/-- `Metrics` (src/main.go:45-49): the record inserted into the metrics
collection. -/
structure Metrics where
  startTime : Int
  endTime : Int
  data : GraphData
deriving DecidableEq, Repr

/-- Go `len` on a possibly-nil slice: `len(nil) = 0`. -/
def goLen {α : Type} : Option (List α) → Nat
  | none => 0
  | some l => l.length

/-- The zero value of the `Node` struct, the starting point of `json.Unmarshal`
into a fresh element. -/
def nodeZero : Node := ⟨"", 0, 0⟩

/-- The zero value of the `Edge` struct. -/
def edgeZero : Edge := ⟨"", "", 0, 0, 0⟩

/-- The zero value of `GraphData`: both slices are `nil`. -/
def graphDataZero : GraphData := ⟨none, none⟩

/-- The zero value of `WeightedGraphResponse`. -/
def envelopeZero : WeightedGraphResponse := ⟨"", "", "", "", graphDataZero⟩

/-- `encoding/json` unmarshalling of a JSON value into a Go `string` field
holding `cur`: a JSON string replaces the value, JSON `null` is a no-op, and
any other kind is a type error. -/
def decodeStringField (j : Json) (cur : String) : Except Unit String :=
  match j with
  | .str s => .ok s
  | .null => .ok cur
  | _ => .error ()

/-- `encoding/json` unmarshalling into a Go `int` field: only an integral
JSON number is accepted; `null` is a no-op. -/
def decodeIntField (j : Json) (cur : Int) : Except Unit Int :=
  match j with
  | .num v => if v.den = 1 then .ok v.num else .error ()
  | .null => .ok cur
  | _ => .error ()

/-- `encoding/json` unmarshalling into a Go `float64` field: any JSON number
is accepted; `null` is a no-op. -/
def decodeFloatField (j : Json) (cur : Rat) : Except Unit Rat :=
  match j with
  | .num v => .ok v
  | .null => .ok cur
  | _ => .error ()

/-- Processing of one object entry while unmarshalling a node element: keys
are matched against the struct tags `id`, `absolute_importance`,
`absolute_dependence` (src/main.go:23-27); unknown keys are ignored. -/
def applyNodeField (n : Node) (k : String) (v : Json) : Except Unit Node :=
  if k = "id" then (decodeStringField v n.id).map fun s => { n with id := s }
  else if k = "absolute_importance" then
    (decodeIntField v n.absoluteImportance).map fun i => { n with absoluteImportance := i }
  else if k = "absolute_dependence" then
    (decodeIntField v n.absoluteDependence).map fun i => { n with absoluteDependence := i }
  else .ok n

/-- Unmarshalling one element of the `nodes` array. -/
def decodeNode (j : Json) : Except Unit Node :=
  match j with
  | .obj fields => fields.foldlM (fun n kv => applyNodeField n kv.1 kv.2) nodeZero
  | .null => .ok nodeZero
  | _ => .error ()

/-- Processing of one object entry while unmarshalling an edge element: keys
are the struct tags `source`, `target`, `latency`, `frequency`,
`co_execution` (src/main.go:28-34). -/
def applyEdgeField (e : Edge) (k : String) (v : Json) : Except Unit Edge :=
  if k = "source" then (decodeStringField v e.source).map fun s => { e with source := s }
  else if k = "target" then (decodeStringField v e.target).map fun s => { e with target := s }
  else if k = "latency" then (decodeFloatField v e.latency).map fun x => { e with latency := x }
  else if k = "frequency" then
    (decodeIntField v e.frequency).map fun i => { e with frequency := i }
  else if k = "co_execution" then
    (decodeFloatField v e.coExecution).map fun x => { e with coExecution := x }
  else .ok e

/-- Unmarshalling one element of the `edges` array. -/
def decodeEdge (j : Json) : Except Unit Edge :=
  match j with
  | .obj fields => fields.foldlM (fun e kv => applyEdgeField e kv.1 kv.2) edgeZero
  | .null => .ok edgeZero
  | _ => .error ()

/-- Unmarshalling into a `[]Node` slice field: JSON `null` sets the slice to
`nil`, a JSON array produces a non-nil slice of decoded elements, anything
else is a type error. -/
def decodeNodeList (j : Json) : Except Unit (Option (List Node)) :=
  match j with
  | .null => .ok none
  | .arr elems => (elems.mapM decodeNode).map some
  | _ => .error ()

/-- Unmarshalling into a `[]Edge` slice field. -/
def decodeEdgeList (j : Json) : Except Unit (Option (List Edge)) :=
  match j with
  | .null => .ok none
  | .arr elems => (elems.mapM decodeEdge).map some
  | _ => .error ()

/-- Processing of one object entry while unmarshalling `GraphData`: keys are
the struct tags `nodes` and `edges` (src/main.go:22-35). -/
def applyGraphDataField (g : GraphData) (k : String) (v : Json) : Except Unit GraphData :=
  if k = "nodes" then (decodeNodeList v).map fun l => { g with nodes := l }
  else if k = "edges" then (decodeEdgeList v).map fun l => { g with edges := l }
  else .ok g

/-- Unmarshalling into the `data` struct field: `null` is a no-op, an object
is decoded field by field, anything else is a type error. -/
def decodeGraphData (j : Json) (cur : GraphData) : Except Unit GraphData :=
  match j with
  | .null => .ok cur
  | .obj fields => fields.foldlM (fun g kv => applyGraphDataField g kv.1 kv.2) cur
  | _ => .error ()

/-- Processing of one object entry while unmarshalling the envelope: keys are
the struct tags `status`, `message`, `weight_type`, `gap_time`, `data`
(src/main.go:37-43). -/
def applyEnvelopeField (e : WeightedGraphResponse) (k : String) (v : Json) :
    Except Unit WeightedGraphResponse :=
  if k = "status" then (decodeStringField v e.status).map fun s => { e with status := s }
  else if k = "message" then (decodeStringField v e.message).map fun s => { e with message := s }
  else if k = "weight_type" then
    (decodeStringField v e.weightType).map fun s => { e with weightType := s }
  else if k = "gap_time" then (decodeStringField v e.gapTime).map fun s => { e with gapTime := s }
  else if k = "data" then (decodeGraphData v e.data).map fun g => { e with data := g }
  else .ok e

/-- `json.Unmarshal(body, &weightedGraphResp)` (src/main.go:149-152) on an
already-parsed JSON value: starts from the zero value, decodes a top-level
object field by field; a top-level `null` leaves the zero value; any other
top-level kind is a type error.  Decoding fails exactly when some recognized
field has a mismatched JSON kind. -/
def decodeEnvelope (j : Json) : Except Unit WeightedGraphResponse :=
  match j with
  | .obj fields => fields.foldlM (fun e kv => applyEnvelopeField e kv.1 kv.2) envelopeZero
  | .null => .ok envelopeZero
  | _ => .error ()

/-- Abstract view of the HTTP response body bytes (src/main.go:143-150): its
byte length (what `string(body)[:10]` slices) and its JSON parse — `some j`
when the bytes are syntactically valid JSON denoting `j`, `none` otherwise. -/
structure BodyModel where
  len : Nat
  content : Option Json

/-- An HTTP response as observed by `CalculateMetric`: the status code
(logged at src/main.go:140 but never branched on) and the body. -/
structure HttpResponse where
  statusCode : Nat
  body : BodyModel

/-- Possible outcomes of `CalculateMetric` (src/main.go:132-156).
`transportErr` is the `http.Get` error path (line 137), `readErr` the
`io.ReadAll` error path (line 144), `panicked` the out-of-range slice
`string(body)[:10]` (line 147) on a body shorter than 10 bytes, `decodeErr`
the `json.Unmarshal` error path (line 150), and `ok` the normal return of
`weightedGraphResp.Data` (line 155).  There is no outcome keyed on the HTTP
status code: the code never inspects `resp.StatusCode`. -/
inductive FetchOutcome where
  | transportErr
  | readErr
  | panicked
  | decodeErr
  | ok (g : GraphData)
deriving DecidableEq, Repr

/-- `CalculateMetric` (src/main.go:132-156), with the HTTP outcome injected:
`resp = .error ()` models an `http.Get` failure, `readOK = false` an
`io.ReadAll` failure.  The window bounds only parameterize the request URL
(line 134) and error text, so they do not appear here; the response they
elicit is the injected `resp`. -/
def CalculateMetric (resp : Except Unit HttpResponse) (readOK : Bool) : FetchOutcome :=
  match resp with
  | .error _ => .transportErr
  | .ok r =>
    if readOK = false then .readErr
    else if r.body.len < 10 then .panicked
    else
      match r.body.content with
      | none => .decodeErr
      | some j =>
        match decodeEnvelope j with
        | .error _ => .decodeErr
        | .ok e => .ok e.data

/-- The MongoDB state touched by the program: the metrics collection and the
update-log collection, each an insert-only list.  An update-log record is its
`last_fetch_time` value (src/main.go:51-53). -/
structure DBState where
  metrics : List Metrics
  updateLog : List Int
deriving DecidableEq, Repr

/-- The watermark read of src/main.go:89-110: `Find` sorted by
`last_fetch_time` descending with limit 1 returns the maximal stored value,
or nothing when the collection is empty. -/
def latestWatermark (s : DBState) : Option Int :=
  match s.updateLog with
  | [] => none
  | x :: xs => some (xs.foldl max x)

/-- `(15 * time.Minute).Microseconds()` (src/main.go:77). -/
def defaultLookbackMicros : Int := 900000000

/-- The window computation of a run (src/main.go:76-77 and 99-110): the end is
`now` (`time.Now().UnixMicro()`), the start defaults to `now` minus 15
minutes and is replaced by the stored watermark whenever one exists — with no
further adjustment.  Returns `(start, end)`. -/
def planWindow (now : Int) (lastWatermark : Option Int) : Int × Int :=
  match lastWatermark with
  | none => (now - defaultLookbackMicros, now)
  | some w => (w, now)

/-- Possible outcomes of `PushToDB` (src/main.go:158-192).  `skippedNil` is
the nil-slice guard returning `nil` (lines 159-162); `connFatal` is
`log.Fatal` on a failed MongoDB connection (line 168), which terminates the
whole process — the `return err` after it is unreachable;
`insertGraphFailed` and `insertLogFailed` are the two insert error returns
(lines 179-181, 186-188); `inserted` is the normal return. -/
inductive PushResult where
  | skippedNil
  | connFatal
  | insertGraphFailed
  | insertLogFailed
  | inserted
deriving DecidableEq, Repr

/-- `PushToDB` (src/main.go:158-192) with the connection and the two insert
outcomes injected as success flags.  The metrics record is inserted first
(line 178); only after it succeeds is the update-log record with value
`data.EndTime` inserted (line 185). -/
def PushToDB (connOK insertGraphOK insertLogOK : Bool) (s : DBState) (data : Metrics) :
    PushResult × DBState :=
  if data.data.nodes.isNone || data.data.edges.isNone then (.skippedNil, s)
  else if connOK = false then (.connFatal, s)
  else if insertGraphOK = false then (.insertGraphFailed, s)
  else
    let s1 : DBState := { s with metrics := s.metrics ++ [data] }
    if insertLogOK = false then (.insertLogFailed, s1)
    else (.inserted, { s1 with updateLog := s1.updateLog ++ [data.endTime] })

/-- The injected external outcomes of one run of
`CalculateMetricAndPushToDB`: the run's MongoDB connection (line 80), the
watermark query together with its cursor decode (lines 92-104), the HTTP
response and body read, and the `PushToDB` connection and inserts. -/
structure RunEnv where
  connectOK : Bool
  queryOK : Bool
  http : Except Unit HttpResponse
  readOK : Bool
  pushConnOK : Bool
  insertGraphOK : Bool
  insertLogOK : Bool

/-- Possible outcomes of one run (src/main.go:73-130).  `fatalExit` marks the
`log.Fatal` calls (lines 82 and 168): the process exits, nothing returns to
the cron scheduler.  `queryFailed`, `fetchFailed` and `pushFailed` are the
logged early returns; `panicked` is an unrecovered panic inside
`CalculateMetric`; `skippedEmpty` is the empty-graph skip (lines 118-121);
`completed` is a full successful run. -/
inductive RunResult where
  | fatalExit
  | queryFailed
  | panicked
  | fetchFailed
  | skippedEmpty
  | pushFailed
  | completed
deriving DecidableEq, Repr

/-- `CalculateMetricAndPushToDB` (src/main.go:73-130): plan the window,
fetch, skip when the fetched graph has no nodes or no edges, otherwise push.
The window is computed by `planWindow` from the queried watermark; the code
interleaves this with the store access (start/end set at lines 76-77, start
overridden at line 106) but both stages are pure, so the composition is
identical. -/
def CalculateMetricAndPushToDB (env : RunEnv) (now : Int) (s : DBState) :
    RunResult × DBState :=
  if env.connectOK = false then (.fatalExit, s)
  else if env.queryOK = false then (.queryFailed, s)
  else
    let w := planWindow now (latestWatermark s)
    match CalculateMetric env.http env.readOK with
    | .transportErr => (.fetchFailed, s)
    | .readErr => (.fetchFailed, s)
    | .decodeErr => (.fetchFailed, s)
    | .panicked => (.panicked, s)
    | .ok gd =>
      if goLen gd.nodes == 0 || goLen gd.edges == 0 then (.skippedEmpty, s)
      else
        let r := PushToDB env.pushConnOK env.insertGraphOK env.insertLogOK s
          ⟨w.1, w.2, gd⟩
        match r.1 with
        | .connFatal => (.fatalExit, r.2)
        | .insertGraphFailed => (.pushFailed, r.2)
        | .insertLogFailed => (.pushFailed, r.2)
        | _ => (.completed, r.2)

/-! ## Theorems -/

/-- A slice with positive Go length is not the nil slice. -/
theorem goLen_pos_isNone_false {α : Type} {o : Option (List α)} (h : 0 < goLen o) :
    o.isNone = false := by
  cases o with
  | none => simp [goLen] at h
  | some l => rfl

/-- C1 counterexample: with `maxGap` taken as the spec's 7 days
(604800000000 μs), `now = 1300000000000` and stored watermark `w = 0` satisfy
`now - w > maxGap`, yet the planned window is `(0, now)` — the start is the
raw watermark, strictly below `now - maxGap`, so no clamping occurs. -/
theorem C1_counterexample :
    (1300000000000 : Int) - 0 > 604800000000 ∧
    planWindow 1300000000000 (some 0) = (0, 1300000000000) ∧
    (planWindow 1300000000000 (some 0)).1 < 1300000000000 - 604800000000 :=
  ⟨by decide, rfl, by decide⟩

/-- C1 amended: for every `now` and stored watermark `w`, the planned window
is `(w, now)` unconditionally; in particular when `now - w > maxGap` the
start equals `w`, which lies strictly below `now - maxGap` — the code applies
no maximum-gap clamp. -/
theorem C1_amended (now w maxGap : Int) (h : now - w > maxGap) :
    planWindow now (some w) = (w, now) ∧ w < now - maxGap :=
  ⟨rfl, by omega⟩

/-- C1 amended witness at `now = 100`, `w = 0`, `maxGap = 3`. -/
theorem C1_amended_witness :
    planWindow 100 (some 0) = (0, 100) ∧ (0 : Int) < 100 - 3 :=
  C1_amended 100 0 3 (by decide)

/-- C2: a MongoDB connection failure during a run does not return control to
the scheduler — `log.Fatal` (src/main.go:82, 168) terminates the process.
The run-level connection failure yields `fatalExit`, and the `PushToDB`-level
connection failure yields `connFatal`, at concrete inputs. -/
theorem C2_connection_failure_is_fatal :
    (CalculateMetricAndPushToDB ⟨false, true, .error (), true, true, true, true⟩
        0 ⟨[], []⟩).1 = RunResult.fatalExit ∧
    (PushToDB false true true ⟨[], []⟩
        ⟨0, 5, ⟨some [nodeZero], some [edgeZero]⟩⟩).1 = PushResult.connFatal :=
  ⟨rfl, rfl⟩

/-- C3 counterexample: an HTTP 500 response whose body is valid JSON with a
non-empty graph is treated exactly like a success — `CalculateMetric` returns
the snapshot rather than any status error, and the run then persists it and
advances the watermark to the window end. -/
theorem C3_counterexample :
    CalculateMetric (.ok ⟨500, ⟨60, some (.obj [("status", .str "ok"),
        ("data", .obj [("nodes", .arr [.obj [("id", .str "a")]]),
          ("edges", .arr [.obj [("source", .str "a"), ("target", .str "b")]])])])⟩⟩) true
      = .ok ⟨some [⟨"a", 0, 0⟩], some [⟨"a", "b", 0, 0, 0⟩]⟩ ∧
    (CalculateMetricAndPushToDB ⟨true, true,
        .ok ⟨500, ⟨60, some (.obj [("status", .str "ok"),
          ("data", .obj [("nodes", .arr [.obj [("id", .str "a")]]),
            ("edges", .arr [.obj [("source", .str "a"), ("target", .str "b")]])])])⟩⟩,
        true, true, true, true⟩ 1000 ⟨[], []⟩).2.updateLog = [1000] :=
  ⟨rfl, rfl⟩

/-- C3 amended: the fetch never inspects the HTTP status code — its outcome
is identical for any two status codes over the same body — and on any fetch
failure (transport, body read, decode) the run returns before persisting, so
the store state, watermark included, is unchanged. -/
theorem C3_amended (sc sc' : Nat) (b : BodyModel) (ro : Bool)
    (env : RunEnv) (now : Int) (s : DBState)
    (h1 : env.connectOK = true) (h2 : env.queryOK = true)
    (h3 : CalculateMetric env.http env.readOK = .transportErr ∨
          CalculateMetric env.http env.readOK = .readErr ∨
          CalculateMetric env.http env.readOK = .decodeErr) :
    CalculateMetric (.ok ⟨sc, b⟩) ro = CalculateMetric (.ok ⟨sc', b⟩) ro ∧
    (CalculateMetricAndPushToDB env now s).2 = s := by
  constructor
  · rfl
  · unfold CalculateMetricAndPushToDB
    rw [h1, h2]
    rcases h3 with h | h | h <;> simp [h]

/-- C3 amended witness: status codes 500 and 200 over the same body, and a
transport-failure run leaving the empty store unchanged. -/
theorem C3_amended_witness :
    CalculateMetric (.ok ⟨500, ⟨0, none⟩⟩) true = CalculateMetric (.ok ⟨200, ⟨0, none⟩⟩) true ∧
    (CalculateMetricAndPushToDB ⟨true, true, .error (), true, true, true, true⟩
        0 ⟨[], []⟩).2 = ⟨[], []⟩ :=
  C3_amended 500 200 ⟨0, none⟩ true ⟨true, true, .error (), true, true, true, true⟩
    0 ⟨[], []⟩ rfl rfl (Or.inl rfl)

/-- C4: whenever the fetched graph has no nodes or no edges, the run reports
the skip outcome (not an error), stores no record, and leaves the latest
watermark identical — the whole store state is unchanged. -/
theorem C4_empty_snapshot_skipped (env : RunEnv) (now : Int) (s : DBState) (gd : GraphData)
    (h1 : env.connectOK = true) (h2 : env.queryOK = true)
    (h3 : CalculateMetric env.http env.readOK = .ok gd)
    (h4 : goLen gd.nodes = 0 ∨ goLen gd.edges = 0) :
    CalculateMetricAndPushToDB env now s = (.skippedEmpty, s) ∧
    (CalculateMetricAndPushToDB env now s).2.metrics = s.metrics ∧
    latestWatermark (CalculateMetricAndPushToDB env now s).2 = latestWatermark s := by
  have hmain : CalculateMetricAndPushToDB env now s = (.skippedEmpty, s) := by
    unfold CalculateMetricAndPushToDB
    rw [h1, h2]
    rcases h4 with h | h <;> simp [h3, h]
  exact ⟨hmain, by rw [hmain], by rw [hmain]⟩

/-- C4 witness: a fetch returning the zero-value graph (`nil` nodes and
edges) on the empty store is skipped with the state unchanged. -/
theorem C4_empty_snapshot_skipped_witness :
    CalculateMetricAndPushToDB ⟨true, true, .ok ⟨200, ⟨15, some (.obj [])⟩⟩,
        true, true, true, true⟩ 0 ⟨[], []⟩ = (.skippedEmpty, ⟨[], []⟩) ∧
    (CalculateMetricAndPushToDB ⟨true, true, .ok ⟨200, ⟨15, some (.obj [])⟩⟩,
        true, true, true, true⟩ 0 ⟨[], []⟩).2.metrics = ([] : List Metrics) ∧
    latestWatermark (CalculateMetricAndPushToDB ⟨true, true,
        .ok ⟨200, ⟨15, some (.obj [])⟩⟩, true, true, true, true⟩ 0 ⟨[], []⟩).2
      = latestWatermark ⟨[], []⟩ :=
  C4_empty_snapshot_skipped ⟨true, true, .ok ⟨200, ⟨15, some (.obj [])⟩⟩,
    true, true, true, true⟩ 0 ⟨[], []⟩ ⟨none, none⟩ rfl rfl rfl (Or.inl rfl)

/-- C5: for a non-empty snapshot, the metrics record write comes first and
the watermark write second: if the record write fails, `PushToDB` reports the
record-write failure and the state — watermark included — is untouched; if
the watermark write fails after the record write succeeded, the record is
already in the store while the latest watermark still holds its prior value;
if both succeed, the record is stored and the watermark value
`data.endTime` is appended. -/
theorem C5_push_ordering (insertGraphOK insertLogOK : Bool) (s : DBState) (m : Metrics)
    (hn : 0 < goLen m.data.nodes) (he : 0 < goLen m.data.edges) :
    (insertGraphOK = false →
      PushToDB true insertGraphOK insertLogOK s m = (.insertGraphFailed, s)) ∧
    (insertGraphOK = true → insertLogOK = false →
      PushToDB true insertGraphOK insertLogOK s m
          = (.insertLogFailed, { s with metrics := s.metrics ++ [m] }) ∧
        latestWatermark { s with metrics := s.metrics ++ [m] } = latestWatermark s) ∧
    (insertGraphOK = true → insertLogOK = true →
      PushToDB true insertGraphOK insertLogOK s m
        = (.inserted, ⟨s.metrics ++ [m], s.updateLog ++ [m.endTime]⟩)) := by
  have hn' : m.data.nodes.isNone = false := goLen_pos_isNone_false hn
  have he' : m.data.edges.isNone = false := goLen_pos_isNone_false he
  refine ⟨fun hg => ?_, fun hg hl => ⟨?_, rfl⟩, fun hg hl => ?_⟩
  · simp [PushToDB, hn', he', hg]
  · simp [PushToDB, hn', he', hg, hl]
  · simp [PushToDB, hn', he', hg, hl]

/-- C5 witness: both writes succeed on the empty store for a one-node,
one-edge snapshot ending at time 7; the record and the watermark 7 are both
appended. -/
theorem C5_push_ordering_witness :
    PushToDB true true true ⟨[], []⟩ ⟨0, 7, ⟨some [nodeZero], some [edgeZero]⟩⟩
      = (.inserted, ⟨[⟨0, 7, ⟨some [nodeZero], some [edgeZero]⟩⟩], [7]⟩) :=
  (C5_push_ordering true true ⟨[], []⟩ ⟨0, 7, ⟨some [nodeZero], some [edgeZero]⟩⟩
    (by decide) (by decide)).2.2 rfl rfl

/-- C6: with no stored watermark the planned window is
`(now - 15min, now)`; with a stored watermark `w` (in particular whenever
`now - w ≤ maxGap`) it is `(w, now)`; and the window end is always `now`. -/
theorem C6_planWindow_cases (now maxGap w : Int) (lw : Option Int)
    (_h : now - w ≤ maxGap) :
    planWindow now none = (now - defaultLookbackMicros, now) ∧
    planWindow now (some w) = (w, now) ∧
    (planWindow now lw).2 = now := by
  refine ⟨rfl, rfl, ?_⟩
  cases lw <;> rfl

/-- C6 witness at `now = 1000`, `w = 980`, `maxGap = 50`. -/
theorem C6_planWindow_cases_witness :
    planWindow 1000 none = (1000 - defaultLookbackMicros, 1000) ∧
    planWindow 1000 (some 980) = (980, 1000) ∧
    (planWindow 1000 none).2 = 1000 :=
  C6_planWindow_cases 1000 50 980 none (by decide)

/-- C7 counterexample: a stored watermark of 1 with `now = 0` yields the
window `(1, 0)`, violating the invariant `start ≤ end`. -/
theorem C7_counterexample :
    ¬ (planWindow 0 (some 1)).1 ≤ (planWindow 0 (some 1)).2 := by decide

/-- C7 amended: the planned window satisfies `start ≤ end` whenever the
watermark is absent, and, for a stored watermark `w`, whenever `w ≤ now`; a
stored value larger than `now` produces `start > end`. -/
theorem C7_amended (now w : Int) (h : w ≤ now) :
    (planWindow now none).1 ≤ (planWindow now none).2 ∧
    (planWindow now (some w)).1 ≤ (planWindow now (some w)).2 := by
  constructor
  · have hd : defaultLookbackMicros = 900000000 := rfl
    show now - defaultLookbackMicros ≤ now
    omega
  · exact h

/-- C7 amended witness at `now = 10`, `w = 3`. -/
theorem C7_amended_witness :
    (planWindow 10 none).1 ≤ (planWindow 10 none).2 ∧
    (planWindow 10 (some 3)).1 ≤ (planWindow 10 (some 3)).2 :=
  C7_amended 10 3 (by decide)

/-- C9: for a completed request and successful body read, `CalculateMetric`
panics at the `string(body)[:10]` slice exactly when the body is shorter
than 10 bytes; with at least 10 bytes it returns normally — either a decode
error or a snapshot. -/
theorem C9_short_body_panics (r : HttpResponse) :
    (CalculateMetric (.ok r) true = .panicked ↔ r.body.len < 10) ∧
    (10 ≤ r.body.len →
      CalculateMetric (.ok r) true = .decodeErr ∨
        ∃ g, CalculateMetric (.ok r) true = .ok g) := by
  obtain ⟨sc, bl, bc⟩ := r
  by_cases hlen : bl < 10
  · constructor
    · simp [CalculateMetric, hlen]
    · intro h
      exact absurd (show bl < 10 from hlen) (by simpa using h)
  · constructor
    · constructor
      · intro h
        exfalso
        cases bc with
        | none => simp [CalculateMetric, hlen] at h
        | some j =>
          cases hd : decodeEnvelope j with
          | error e => simp [CalculateMetric, hlen, hd] at h
          | ok e => simp [CalculateMetric, hlen, hd] at h
      · intro h
        exact absurd (show bl < 10 by simpa using h) hlen
    · intro _
      cases bc with
      | none =>
        left
        simp [CalculateMetric, hlen]
      | some j =>
        cases hd : decodeEnvelope j with
        | error e =>
          left
          simp [CalculateMetric, hlen, hd]
        | ok e =>
          right
          exact ⟨e.data, by simp [CalculateMetric, hlen, hd]⟩

/-- C9 witness: a 12-byte body that is not valid JSON returns the decode
error normally rather than panicking. -/
theorem C9_short_body_panics_witness :
    CalculateMetric (.ok ⟨200, ⟨12, none⟩⟩) true = .decodeErr ∨
      ∃ g, CalculateMetric (.ok ⟨200, ⟨12, none⟩⟩) true = .ok g :=
  (C9_short_body_panics ⟨200, ⟨12, none⟩⟩).2 (by decide)

/-- C10 counterexample: the body `{"status": 123}` is syntactically valid
JSON, yet the fetch fails with a decode error, because `json.Unmarshal`
rejects a JSON number for the `string` field `status` — decode failures are
not limited to syntactically invalid JSON. -/
theorem C10_counterexample :
    CalculateMetric (.ok ⟨200, ⟨20, some (.obj [("status", .num 123)])⟩⟩) true
      = .decodeErr := rfl

/-- C10 amended: for type-compatible JSON the decode succeeds regardless of
the `status` and `message` values and of missing fields — an envelope
carrying only `status` (for example `"error"`) and `message` decodes to a
snapshot with nil nodes and edges — and the pipeline then treats it as empty
and skips, leaving the store unchanged; a decode failure needs a body that
is syntactically invalid or has a type-mismatched field. -/
theorem C10_amended (st msg : String) (sc n : Nat) (now : Int) (s : DBState)
    (hn : 10 ≤ n) :
    decodeEnvelope (.obj [("status", .str st), ("message", .str msg)])
      = .ok ⟨st, msg, "", "", ⟨none, none⟩⟩ ∧
    CalculateMetricAndPushToDB
        ⟨true, true,
          .ok ⟨sc, ⟨n, some (.obj [("status", .str st), ("message", .str msg)])⟩⟩,
          true, true, true, true⟩ now s
      = (.skippedEmpty, s) := by
  have hlt : ¬ n < 10 := Nat.not_lt.mpr hn
  have hdec : decodeEnvelope (.obj [("status", .str st), ("message", .str msg)])
      = .ok ⟨st, msg, "", "", ⟨none, none⟩⟩ := rfl
  refine ⟨hdec, ?_⟩
  simp [CalculateMetricAndPushToDB, CalculateMetric, hlt, hdec, goLen]

/-- C10 amended witness: status `"error"`, message `"boom"`, a 20-byte body,
HTTP 200, on the empty store. -/
theorem C10_amended_witness :
    decodeEnvelope (.obj [("status", .str "error"), ("message", .str "boom")])
      = .ok ⟨"error", "boom", "", "", ⟨none, none⟩⟩ ∧
    CalculateMetricAndPushToDB
        ⟨true, true,
          .ok ⟨200, ⟨20, some (.obj [("status", .str "error"), ("message", .str "boom")])⟩⟩,
          true, true, true, true⟩ 0 ⟨[], []⟩
      = (.skippedEmpty, ⟨[], []⟩) :=
  C10_amended "error" "boom" 200 20 0 ⟨[], []⟩ (by decide)
